import Mathlib

/-!
Shallow embedding of `src/index.js` of the repository
`logger-for-yc-functions-with-tg-alert`: a structured-logging facade for
Yandex Cloud Functions with a Telegram alert channel.

Modelling conventions:
* JavaScript values that may reach a formatter are modelled by `JSValue`
  (string, number, `Error` instances carrying name/message/stack, and other
  objects carried together with their 2-space `JSON.stringify` rendering).
* Machine effects are made explicit: every sink write performed via
  `console.log` is recorded as a `Write` (with the stream it goes to), and
  every `fetch` POST issued by `sendMsgToTg` is recorded as a `TgPost`.
* The ambient pieces of state the code reads are passed explicitly: the
  wall-clock string `new Date().toLocaleString()` becomes a `date` argument,
  the outcome of the HTTP transport becomes a `TransportOutcome` argument,
  and the engine-provided stack text of a thrown `Error` becomes a `stack`
  argument.
* `undefined` / `null` option values are modelled as `none`; JavaScript
  default parameters (`label = null`) make the two coincide at the points
  the claims touch.
* Property reads on JavaScript object literals fall through to
  `Object.prototype`, whose members (`constructor`, `toString`, ...) are
  truthy. The cloud formatter's `levels` lookup models this fall-through
  faithfully, since a judged property ranges over arbitrary level strings
  there. The `DEFAULT_LEVELS`, `COLORS` and console `levels` literals are
  modelled as closed maps: the properties stated about them only reach the
  named keys (a level option naming a prototype member would make the
  configured threshold a function and silence the logger — outside every
  stated claim).
-/

namespace YCLogger

/-- JavaScript values a caller may pass as a log message: a string, a
number, an `Error` (name, message, stack), or another object carried with
its `JSON.stringify(msg, null, 2)` rendering. -/
inductive JSValue where
  | str : String → JSValue
  | num : Int → JSValue
  | err : (name message stack : String) → JSValue
  | obj : (json : String) → JSValue
  deriving DecidableEq, Repr

/-- String coercion of a `JSValue` as JavaScript template literals and the
`+` operator perform it at the concatenation sites of the source. -/
def jsToString : JSValue → String
  | .str s => s
  | .num n => toString n
  | .err n m _ => n ++ ": " ++ m
  | .obj j => j

/-- The `DEFAULT_LEVELS` object of `src/index.js` lines 3-11: severity name
to numeric rank; an absent key is `none` (JavaScript `undefined`). -/
def DEFAULT_LEVELS (level : String) : Option Nat :=
  if level = "trace" then some 10
  else if level = "debug" then some 20
  else if level = "info" then some 30
  else if level = "warn" then some 40
  else if level = "error" then some 50
  else if level = "fatal" then some 60
  else if level = "unspecified" then some 70
  else none

/-- `API_URL` constant of `src/index.js` line 13. -/
def API_URL : String := "https://api.telegram.org/bot"

/-- Outcome of the HTTP transport underlying one `fetch` in `sendMsgToTg`:
the fetch promise rejects, the response is non-2xx, the JSON body has
`ok: false`, or the call succeeds. -/
inductive TransportOutcome where
  | networkError : (message : String) → TransportOutcome
  | httpError : (status : Nat) → (statusText : String) → TransportOutcome
  | apiError : (error_code : Int) → (description : String) → TransportOutcome
  | success : TransportOutcome
  deriving DecidableEq, Repr

/-- The error text `sendMsgToTg` raises for each failing transport outcome
(the `throw new Error(...)` template strings of lines 47 and 51, and the
message of a rejected fetch). Defined as the empty string on success, where
nothing is thrown. -/
def TransportOutcome.errText : TransportOutcome → String
  | .networkError m => m
  | .httpError status statusText => toString status ++ ": " ++ statusText
  | .apiError code description => toString code ++ ": " ++ description
  | .success => ""

/-- One POST issued by `sendMsgToTg`: the URL, and the JSON body fields
`chat_id`, `text` and the spread `extra` options. -/
structure TgPost where
  url : String
  chat_id : Option Int
  text : String
  extra : List (String × String)
  deriving DecidableEq, Repr

/-- `sendMsgToTg` of `src/index.js` lines 24-52. The fetch is always
issued (first component); the second component is the value of the promise:
`ok ()` when the response is 2xx with an `ok: true` body, otherwise the
thrown error's text. `undefined` credentials are coerced into the URL and
body exactly as JavaScript template literals and `JSON.stringify` do
(a missing token renders as the literal text `undefined`; a missing
`chat_id` key is dropped from the JSON body). -/
def sendMsgToTg (chatId : Option Int) (botToken : Option String)
    (message : String) (extra : List (String × String))
    (outcome : TransportOutcome) : TgPost × Except String Unit :=
  let url := API_URL ++ botToken.getD "undefined" ++ "/sendMessage"
  let post : TgPost := ⟨url, chatId, message, extra⟩
  match outcome with
  | .success => (post, Except.ok ())
  | o => (post, Except.error o.errText)

/-- Own members of `Object.prototype` in the JavaScript runtime: a
property read on a plain object literal falls through to these names, and
each of them is a truthy value (a function, or the prototype object
itself for `__proto__`). -/
def objectPrototypeMembers : List String :=
  ["constructor", "hasOwnProperty", "isPrototypeOf", "propertyIsEnumerable",
   "toLocaleString", "toString", "valueOf", "__defineGetter__",
   "__defineSetter__", "__lookupGetter__", "__lookupSetter__", "__proto__"]

/-- A truthy value the `levels` lookup of `prepareMessageForYC` can place
in the record's `level` field: one of the uppercase name strings (own keys
or the `UNSPECIFIED` fallback), or the member named `s` inherited from
`Object.prototype` when the level string collides with one. -/
inductive YCLevelValue where
  | str : String → YCLevelValue
  | protoMember : (s : String) → YCLevelValue
  deriving DecidableEq, Repr

/-- The `levels[level]` read of `prepareMessageForYC`, lines 62-72: the
six own keys map to their uppercase cloud names; any other name is looked
up on the prototype chain, finding the truthy inherited
`Object.prototype` member when the name is one of
`objectPrototypeMembers`, and `undefined` otherwise. -/
def ycLevels (level : String) : Option YCLevelValue :=
  if level = "debug" then some (.str "DEBUG")
  else if level = "info" then some (.str "INFO")
  else if level = "warn" then some (.str "WARN")
  else if level = "error" then some (.str "ERROR")
  else if level = "fatal" then some (.str "FATAL")
  else if level = "trace" then some (.str "TRACE")
  else if level ∈ objectPrototypeMembers then some (.protoMember level)
  else none

/-- The record `prepareMessageForYC` returns: `level` holds whatever the
`levels[level] || 'UNSPECIFIED'` expression produced (a string, or an
inherited prototype member for colliding level names); `message` keeps
the JavaScript value it holds at return time (a string after the
`Error` / object branches, the raw value otherwise). -/
structure YCMessage where
  level : YCLevelValue
  message : JSValue
  deriving DecidableEq, Repr

/-- `prepareMessageForYC` of `src/index.js` lines 61-88. The source's two
sequential rewrites of `prepared.message` (`instanceof Error` first, then
`typeof === 'object'`) are fused into one match: an `Error` is rewritten to
`name + ': ' + message + '\n' + stack` and is then a string, so the
object branch only ever fires for non-Error objects, which it replaces by
their JSON rendering. The label test of line 83 is `label !== null`, so any
present label (the empty string included) adds the `label + ':>> '`
prefix, string-coercing the message. Every value the `levels` lookup can
find is truthy (a non-empty string or a prototype member), so
`levels[level] || 'UNSPECIFIED'` is the found value when present and the
`UNSPECIFIED` literal otherwise. -/
def prepareMessageForYC (level : String) (msg : JSValue)
    (label : Option String) : YCMessage :=
  let lvl := (ycLevels level).getD (.str "UNSPECIFIED")
  let m : JSValue := match msg with
    | .err n me st => .str (n ++ ": " ++ me ++ "\n" ++ st)
    | .obj j => .str j
    | v => v
  let m : JSValue := match label with
    | some l => .str (l ++ ":>> " ++ jsToString m)
    | none => m
  ⟨lvl, m⟩

/-- JavaScript `toUpperCase()` on the ASCII level names, written over the
character list so it evaluates by reduction. -/
def jsToUpperCase (s : String) : String :=
  ⟨s.data.map Char.toUpper⟩

/-- The `esc` helper of `prepareMessageForConsole`, line 127: bracket `s`
with the ANSI control sequence for `code` and the reset sequence. -/
def esc (code s : String) : String :=
  "\x1b[" ++ code ++ "m" ++ s ++ "\x1b[0m"

/-- The `COLORS` object of lines 106-115. -/
def COLORS (color : String) : Option Nat :=
  if color = "black" then some 0
  else if color = "red" then some 1
  else if color = "green" then some 2
  else if color = "yellow" then some 3
  else if color = "blue" then some 4
  else if color = "magenta" then some 5
  else if color = "cyan" then some 6
  else if color = "white" then some 7
  else none

/-- The `colorCode` helper of lines 128-129: string-concatenate `'4'` or
`'3'` with the numeric color code (JavaScript coerces the number; an
unknown color would coerce `undefined`). -/
def colorCode (color : String) (background : Bool) : String :=
  (if background then "4" else "3") ++
    (match COLORS color with
      | some n => toString n
      | none => "undefined")

/-- The `levels` object of `prepareMessageForConsole`, lines 130-138:
level name to ANSI color code string. -/
def consoleLevels (level : String) : Option String :=
  if level = "debug" then some (colorCode "blue" false)
  else if level = "info" then some (colorCode "green" false)
  else if level = "warn" then some (colorCode "yellow" false)
  else if level = "error" then some (colorCode "red" false)
  else if level = "fatal" then some (colorCode "red" true)
  else if level = "trace" then some (colorCode "cyan" false)
  else if level = "unspecified" then some (colorCode "magenta" false)
  else none

/-- `prepareMessageForConsole` of `src/index.js` lines 97-148. The `date`
argument stands for the `new Date().toLocaleString()` the source reads
inline. `ANSI['u']` is 4 (underline); the label test of line 141 is
`label !== null`, so a present empty-string label still yields the
underlined-label-plus-`:>> ` segment. An unknown level would coerce the
`undefined` color lookup into the escape sequence, as the template literal
does. The message value goes through the same `Error` / object rewrites as
the cloud formatter before being interpolated. -/
def prepareMessageForConsole (level : String) (msg : JSValue)
    (label : Option String) (date : String) : String :=
  let m : String := match msg with
    | .err n me st => n ++ ": " ++ me ++ "\n" ++ st
    | .obj j => j
    | v => jsToString v
  let escLabel : String := match label with
    | some l => esc "4" l ++ ":>> "
    | none => ""
  date ++ ": " ++ esc ((consoleLevels level).getD "undefined") (jsToUpperCase level)
    ++ ": " ++ escLabel ++ " " ++ m

/-- The two formatter functions the constructor can bind to `#handler`. -/
inductive Handler where
  | console
  | yc
  deriving DecidableEq, Repr

/-- The options object accepted by `Logger.create` / the constructor,
lines 168-178: every field may be absent (`none`). -/
structure Options where
  runtime : Option String
  header : Option String
  level : Option String
  chatId : Option Int
  botToken : Option String
  extra : Option (List (String × String))
  deriving DecidableEq, Repr

/-- The private state of a `Logger` instance after construction. -/
structure Logger where
  runtime : String
  handler : Handler
  header : Option String
  level : Nat
  chatId : Option Int
  botToken : Option String
  extra : List (String × String)
  deriving DecidableEq, Repr

/-- The `Logger` constructor, lines 168-178 (and `Logger.create`, line
190). `runtime || 'yc'` treats the empty string as falsy; the handler test
is the strict comparison `runtime === 'local'` on the raw option;
`DEFAULT_LEVELS[level] || DEFAULT_LEVELS['debug']` falls back to rank 20
when the level option is absent or unknown (no rank is 0, so truthiness is
presence); `extra || {}` defaults to the empty options object. -/
def Logger.create (options : Options) : Logger where
  runtime := match options.runtime with
    | some r => if r = "" then "yc" else r
    | none => "yc"
  handler := if options.runtime = some "local" then Handler.console else Handler.yc
  header := options.header
  level := ((options.level.bind DEFAULT_LEVELS).getD 20)
  chatId := options.chatId
  botToken := options.botToken
  extra := options.extra.getD []

/-- What one `console.log` call prints: the string of the terminal
formatter or the record of the cloud formatter. -/
inductive Output where
  | ycRecord : YCMessage → Output
  | consoleLine : String → Output
  deriving DecidableEq, Repr

/-- The process stream a console write goes to. -/
inductive StdStream where
  | stdout
  | stderr
  deriving DecidableEq, Repr

/-- One observable sink write: the stream and the printed output. -/
structure Write where
  stream : StdStream
  content : Output
  deriving DecidableEq, Repr

/-- The rendering step of `Logger.#log`, line 196: apply the handler
selected at construction to the call's level, message and label. -/
def Logger.render (lg : Logger) (date level : String) (msg : JSValue)
    (label : Option String) : Output :=
  match lg.handler with
  | .console => .consoleLine (prepareMessageForConsole level msg label date)
  | .yc => .ycRecord (prepareMessageForYC level msg label)

/-- `Logger.#log`, lines 194-197: when `#level <= DEFAULT_LEVELS[level]`,
one `console.log` of the rendered output; `console.log` writes to standard
output. An unknown level name makes the comparison against `undefined`
false, so nothing is written. -/
def Logger.log (lg : Logger) (date level : String) (msg : JSValue)
    (label : Option String) : List Write :=
  match DEFAULT_LEVELS level with
  | some r =>
      if lg.level ≤ r then [⟨StdStream.stdout, lg.render date level msg label⟩]
      else []
  | none => []

/-- The observable effects of one public call: the console writes it
performs and the Telegram POSTs it issues. -/
structure Effects where
  writes : List Write
  posts : List TgPost
  deriving DecidableEq, Repr

/-- The shared body of the six leveled methods (`trace` ... `fatal`,
lines 204-257): each one only calls `Logger.#log` with its fixed level
name — no method issues a network call. -/
def Logger.leveled (lg : Logger) (level date : String) (msg : JSValue)
    (label : Option String) : Effects :=
  ⟨lg.log date level msg label, []⟩

/-- `Logger.trace`, lines 204-207. -/
def Logger.trace (lg : Logger) (date : String) (msg : JSValue)
    (label : Option String) : Effects :=
  lg.leveled "trace" date msg label

/-- `Logger.debug`, lines 214-217. -/
def Logger.debug (lg : Logger) (date : String) (msg : JSValue)
    (label : Option String) : Effects :=
  lg.leveled "debug" date msg label

/-- `Logger.info`, lines 224-227. -/
def Logger.info (lg : Logger) (date : String) (msg : JSValue)
    (label : Option String) : Effects :=
  lg.leveled "info" date msg label

/-- `Logger.warn`, lines 234-237. -/
def Logger.warn (lg : Logger) (date : String) (msg : JSValue)
    (label : Option String) : Effects :=
  lg.leveled "warn" date msg label

/-- `Logger.error`, lines 244-247. -/
def Logger.error (lg : Logger) (date : String) (msg : JSValue)
    (label : Option String) : Effects :=
  lg.leveled "error" date msg label

/-- `Logger.fatal`, lines 254-257. -/
def Logger.fatal (lg : Logger) (date : String) (msg : JSValue)
    (label : Option String) : Effects :=
  lg.leveled "fatal" date msg label

/-- The message shaping of `Logger.sendToTg`, lines 270-286: an `Error`
becomes `name + ': ' + message` (no stack), another object its JSON
rendering; the label test is truthiness (`if (label)`), so an empty-string
label adds no prefix, and likewise for the header. -/
def tgPrepare (msg : JSValue) (label : Option String)
    (header : Option String) : String :=
  let prepared : String := match msg with
    | .err n me _ => n ++ ": " ++ me
    | .obj j => j
    | v => jsToString v
  let prepared : String := match label with
    | some l => if l = "" then prepared else l ++ ":>> " ++ prepared
    | none => prepared
  match header with
  | some h => if h = "" then prepared else h ++ "\n\n" ++ prepared
  | none => prepared

/-- `Logger.sendToTg`, lines 265-292. The returned `Except` is what the
caller of the async method observes: `ok` with the effects when the
promise resolves, `error` if an exception were to escape. The body first
logs locally at level `unspecified`, then shapes the message and awaits
`sendMsgToTg` inside `try`; the `catch` clause turns any thrown error into
a `this.error(error)` call (a thrown `Error` has name `Error` and the
engine-supplied `stack` text), so no failure escapes. There is no
credential check: the POST is issued even when `chatId` / `botToken` are
absent. -/
def Logger.sendToTg (lg : Logger) (date : String) (msg : JSValue)
    (label : Option String) (outcome : TransportOutcome) (stack : String) :
    Except String Effects :=
  let localWrites := lg.log date "unspecified" msg label
  let preparedMsg := tgPrepare msg label lg.header
  let (post, res) := sendMsgToTg lg.chatId lg.botToken preparedMsg lg.extra outcome
  match res with
  | .ok _ => .ok ⟨localWrites, [post]⟩
  | .error e =>
      .ok ⟨localWrites ++ lg.log date "error" (JSValue.err "Error" e stack) none,
        [post]⟩

/-- Effects a caller extracts from a resolved `sendToTg` promise (the
rejected case never occurs; the default is a dead branch). -/
def runSend (r : Except String Effects) : Effects :=
  (r.toOption).getD ⟨[], []⟩

end YCLogger

namespace YCLogger

/-- C1: for every severity level among the seven ranked names and every
message, a leveled call with configured minimum level M performs zero sink
writes and zero notifications when the call's rank is below M's, and
performs exactly one write, rendered by the terminal formatter when the
configured runtime is `local` and by the cloud formatter for any other
runtime value, when the call's rank is at least M's. -/
theorem c1_severity_gate_and_runtime_dispatch (options : Options)
    (date level : String) (msg : JSValue) (label : Option String) (r : Nat)
    (hr : DEFAULT_LEVELS level = some r) :
    (r < (Logger.create options).level →
      (Logger.create options).leveled level date msg label = ⟨[], []⟩) ∧
    ((Logger.create options).level ≤ r →
      ((Logger.create options).leveled level date msg label).writes =
        [⟨StdStream.stdout, (Logger.create options).render date level msg label⟩] ∧
      ((Logger.create options).leveled level date msg label).posts = [] ∧
      (options.runtime = some "local" →
        (Logger.create options).render date level msg label =
          Output.consoleLine (prepareMessageForConsole level msg label date)) ∧
      (options.runtime ≠ some "local" →
        (Logger.create options).render date level msg label =
          Output.ycRecord (prepareMessageForYC level msg label))) := by
  constructor
  · intro hlt
    unfold Logger.leveled Logger.log
    rw [hr]
    simp [Nat.not_le.mpr hlt]
  · intro hle
    refine ⟨?_, rfl, ?_, ?_⟩
    · unfold Logger.leveled Logger.log
      rw [hr]
      simp [hle]
    · intro hloc
      unfold Logger.render Logger.create
      simp [hloc]
    · intro hnloc
      unfold Logger.render Logger.create
      simp [hnloc]

/-- Witness for C1 at a concrete input: level `debug` (rank 20) against a
`local` logger configured with minimum level `info`. -/
theorem c1_witness :
    DEFAULT_LEVELS "debug" = some 20 ∧
    ((20 < (Logger.create ⟨some "local", none, some "info", none, none, none⟩).level →
      (Logger.create ⟨some "local", none, some "info", none, none, none⟩).leveled
        "debug" "D" (JSValue.str "x") none = ⟨[], []⟩) ∧
    ((Logger.create ⟨some "local", none, some "info", none, none, none⟩).level ≤ 20 →
      ((Logger.create ⟨some "local", none, some "info", none, none, none⟩).leveled
          "debug" "D" (JSValue.str "x") none).writes =
        [⟨StdStream.stdout, (Logger.create ⟨some "local", none, some "info", none,
          none, none⟩).render "D" "debug" (JSValue.str "x") none⟩] ∧
      ((Logger.create ⟨some "local", none, some "info", none, none, none⟩).leveled
          "debug" "D" (JSValue.str "x") none).posts = [] ∧
      ((⟨some "local", none, some "info", none, none, none⟩ : Options).runtime = some "local" →
        (Logger.create ⟨some "local", none, some "info", none, none, none⟩).render
            "D" "debug" (JSValue.str "x") none =
          Output.consoleLine (prepareMessageForConsole "debug" (JSValue.str "x") none "D")) ∧
      ((⟨some "local", none, some "info", none, none, none⟩ : Options).runtime ≠ some "local" →
        (Logger.create ⟨some "local", none, some "info", none, none, none⟩).render
            "D" "debug" (JSValue.str "x") none =
          Output.ycRecord (prepareMessageForYC "debug" (JSValue.str "x") none)))) :=
  ⟨rfl, c1_severity_gate_and_runtime_dispatch
    ⟨some "local", none, some "info", none, none, none⟩ "D" "debug"
    (JSValue.str "x") none 20 rfl⟩

/-- C2 counterexample: with `runtime = "cloud"` and default threshold,
`error(new Error("boom"))` does emit the structured `ERROR` record, but it
attempts zero notification POSTs, not exactly one — the leveled methods
never invoke the notifier. -/
theorem c2_counterexample :
    (((Logger.create ⟨some "cloud", none, none, some 1, some "token", none⟩).error
        "6/1/2026, 10:00:00 AM" (JSValue.err "Error" "boom" "Error: boom\n    at handler")
        none).writes.map Write.content =
      [Output.ycRecord ⟨YCLevelValue.str "ERROR",
        JSValue.str "Error: boom\nError: boom\n    at handler"⟩]) ∧
    ¬ (((Logger.create ⟨some "cloud", none, none, some 1, some "token", none⟩).error
        "6/1/2026, 10:00:00 AM" (JSValue.err "Error" "boom" "Error: boom\n    at handler")
        none).posts.length = 1) :=
  ⟨rfl, by decide⟩

/-- C2 amended: the leveled `error` and `fatal` methods perform no remote
notification at all; only the explicit `sendToTg` method posts, and it
attempts exactly the one POST that `sendMsgToTg` issues. -/
theorem c2_amended_no_leveled_notification (options : Options) (date : String)
    (msg : JSValue) (label : Option String) (outcome : TransportOutcome)
    (stack : String) :
    ((Logger.create options).error date msg label).posts = [] ∧
    ((Logger.create options).fatal date msg label).posts = [] ∧
    (runSend ((Logger.create options).sendToTg date msg label outcome
        stack)).posts =
      [(sendMsgToTg options.chatId options.botToken
          (tgPrepare msg label options.header) (options.extra.getD [])
          outcome).1] := by
  refine ⟨rfl, rfl, ?_⟩
  cases outcome <;> rfl

/-- C3: `sendToTg` always resolves and never rejects: for every transport
outcome the promise is `ok`, the POST is issued, and every delivery
failure is caught and turned into a local `error`-level log of the thrown
error, never propagated to the caller. -/
theorem c3_sendToTg_always_resolves (lg : Logger) (date : String)
    (msg : JSValue) (label : Option String) (outcome : TransportOutcome)
    (stack : String) :
    lg.sendToTg date msg label outcome stack =
      Except.ok ⟨lg.log date "unspecified" msg label ++
          (if outcome = TransportOutcome.success then []
           else lg.log date "error" (JSValue.err "Error" outcome.errText stack) none),
        [(sendMsgToTg lg.chatId lg.botToken (tgPrepare msg label lg.header)
            lg.extra outcome).1]⟩ := by
  cases outcome <;>
    simp [Logger.sendToTg, sendMsgToTg, TransportOutcome.errText]

/-- C4 counterexample: with no `chatId` and no `botToken`, `sendToTg` is
not a silent no-op — it still issues one POST, to the URL built with the
literal text `undefined` in place of the token. -/
theorem c4_counterexample :
    ¬ ((runSend ((Logger.create ⟨some "cloud", some "my-fn", none, none, none,
        none⟩).sendToTg "6/1/2026, 10:00:00 AM" (JSValue.str "x") none
        (TransportOutcome.networkError "fetch failed") "stacktext")).posts.length = 0) ∧
    (runSend ((Logger.create ⟨some "cloud", some "my-fn", none, none, none,
        none⟩).sendToTg "6/1/2026, 10:00:00 AM" (JSValue.str "x") none
        (TransportOutcome.networkError "fetch failed") "stacktext")).posts =
      [⟨"https://api.telegram.org/botundefined/sendMessage", none,
        "my-fn\n\nx", []⟩] :=
  ⟨by decide, rfl⟩

/-- C4 amended: absent credentials do not disable the notifier — `sendToTg`
still attempts exactly one network call, to the URL containing the literal
text `undefined`; the leveled `error` method alone performs zero network
calls (leveled calls never notify), and under the default threshold it
still produces its one local sink record. -/
theorem c4_amended_post_without_credentials (runtime header level : Option String)
    (extra : Option (List (String × String))) (date : String) (msg : JSValue)
    (label : Option String) (outcome : TransportOutcome) (stack : String) :
    (runSend ((Logger.create ⟨runtime, header, level, none, none,
        extra⟩).sendToTg date msg label outcome stack)).posts.length = 1 ∧
    (runSend ((Logger.create ⟨runtime, header, level, none, none,
        extra⟩).sendToTg date msg label outcome stack)).posts.map TgPost.url =
      ["https://api.telegram.org/botundefined/sendMessage"] ∧
    ((Logger.create ⟨runtime, header, level, none, none, extra⟩).error
        date msg label).posts = [] ∧
    ((Logger.create ⟨runtime, header, none, none, none, extra⟩).error
        date msg label).writes.length = 1 := by
  refine ⟨?_, ?_, rfl, rfl⟩ <;> cases outcome <;> rfl

/-- C5: cloud-sink normalization of an `Error` value renders exactly
`name ++ ": " ++ message ++ "\n" ++ stack`, and a provided (non-null)
label prefixes the rendered text with `label ++ ":>> "`. -/
theorem c5_error_normalization_for_cloud (level n me st l : String) :
    (prepareMessageForYC level (JSValue.err n me st) none).message =
      JSValue.str (n ++ ": " ++ me ++ "\n" ++ st) ∧
    (prepareMessageForYC level (JSValue.err n me st) (some l)).message =
      JSValue.str (l ++ ":>> " ++ (n ++ ": " ++ me ++ "\n" ++ st)) :=
  ⟨rfl, rfl⟩

end YCLogger

namespace YCLogger

/-- C6 counterexample: at the unknown level string `constructor`, the
`levels` lookup falls through to the truthy inherited
`Object.prototype.constructor` member, so the record's `level` field is
that member — neither `UNSPECIFIED` nor any of the seven fixed uppercase
names. -/
theorem c6_counterexample :
    (prepareMessageForYC "constructor" (JSValue.str "x") none).level =
      YCLevelValue.protoMember "constructor" ∧
    (prepareMessageForYC "constructor" (JSValue.str "x") none).level ∉
      ([YCLevelValue.str "TRACE", YCLevelValue.str "DEBUG",
        YCLevelValue.str "INFO", YCLevelValue.str "WARN",
        YCLevelValue.str "ERROR", YCLevelValue.str "FATAL",
        YCLevelValue.str "UNSPECIFIED"] : List YCLevelValue) ∧
    (prepareMessageForYC "constructor" (JSValue.str "x") none).level ≠
      YCLevelValue.str "UNSPECIFIED" :=
  ⟨rfl, by decide, by decide⟩

/-- C6 amended: for every level argument that is not an inherited
`Object.prototype` member name, the cloud formatter's `level` field is one
of the seven fixed uppercase names, and any such level outside the six
core levels maps to the literal string `UNSPECIFIED`; a level name
colliding with a prototype member instead puts that inherited member in
the field. -/
theorem c6_amended_level_field_closed (level : String) (msg : JSValue)
    (label : Option String) (h : level ∉ objectPrototypeMembers) :
    (prepareMessageForYC level msg label).level ∈
      ([YCLevelValue.str "TRACE", YCLevelValue.str "DEBUG",
        YCLevelValue.str "INFO", YCLevelValue.str "WARN",
        YCLevelValue.str "ERROR", YCLevelValue.str "FATAL",
        YCLevelValue.str "UNSPECIFIED"] : List YCLevelValue) ∧
    (level ∉ ["trace", "debug", "info", "warn", "error", "fatal"] →
      (prepareMessageForYC level msg label).level =
        YCLevelValue.str "UNSPECIFIED") := by
  have hl : (prepareMessageForYC level msg label).level =
      (ycLevels level).getD (YCLevelValue.str "UNSPECIFIED") := rfl
  rw [hl]
  unfold ycLevels
  split_ifs with h1 h2 h3 h4 h5 h6
  · subst h1; exact ⟨by decide, by decide⟩
  · subst h2; exact ⟨by decide, by decide⟩
  · subst h3; exact ⟨by decide, by decide⟩
  · subst h4; exact ⟨by decide, by decide⟩
  · subst h5; exact ⟨by decide, by decide⟩
  · subst h6; exact ⟨by decide, by decide⟩
  · exact ⟨by decide, fun _ => rfl⟩

/-- Witness for the amended C6 at the concrete unknown level name
`verbose`, which is neither a core level nor a prototype member. -/
theorem c6_amended_witness :
    ("verbose" ∉ objectPrototypeMembers) ∧
    ("verbose" ∉ ["trace", "debug", "info", "warn", "error", "fatal"]) ∧
    (prepareMessageForYC "verbose" (JSValue.str "x") none).level ∈
      ([YCLevelValue.str "TRACE", YCLevelValue.str "DEBUG",
        YCLevelValue.str "INFO", YCLevelValue.str "WARN",
        YCLevelValue.str "ERROR", YCLevelValue.str "FATAL",
        YCLevelValue.str "UNSPECIFIED"] : List YCLevelValue) ∧
    (prepareMessageForYC "verbose" (JSValue.str "x") none).level =
      YCLevelValue.str "UNSPECIFIED" :=
  ⟨by decide, by decide,
    (c6_amended_level_field_closed "verbose" (JSValue.str "x") none (by decide)).1,
    (c6_amended_level_field_closed "verbose" (JSValue.str "x") none
      (by decide)).2 (by decide)⟩

/-- C7 counterexample: with the markup mode `parse_mode: HTML` configured
in `extra`, the notification text for the message `<b>&</b>` with label
`label` goes out as the raw string `label:>> <b>&</b>` — it contains the
reserved characters unescaped (and no backslash at all), refuting the
claim that reserved characters are escaped or stripped before the POST. -/
theorem c7_counterexample :
    (runSend ((Logger.create ⟨some "cloud", none, none, some 1, some "tok",
        some [("parse_mode", "HTML")]⟩).sendToTg "6/1/2026, 10:00:00 AM"
        (JSValue.str "<b>&</b>") (some "label") TransportOutcome.success
        "stacktext")).posts.map TgPost.text = ["label:>> <b>&</b>"] ∧
    ('<' ∈ ("label:>> <b>&</b>").data ∧ '>' ∈ ("label:>> <b>&</b>").data ∧
      '&' ∈ ("label:>> <b>&</b>").data ∧
      Char.ofNat 92 ∉ ("label:>> <b>&</b>").data) :=
  ⟨rfl, by decide, by decide, by decide, by decide⟩

/-- C7 amended: no markup escaping is performed anywhere on the
notification path — for a string message the outbound text is exactly the
`tgPrepare` shaping (optional label and header prefixes around the message
verbatim), and with no label and no header it is the message itself,
character for character, whatever rendering mode `extra` configures. -/
theorem c7_amended_no_escaping (options : Options) (date s stack : String)
    (label : Option String) (outcome : TransportOutcome) :
    (runSend ((Logger.create options).sendToTg date (JSValue.str s) label
        outcome stack)).posts.map TgPost.text =
      [tgPrepare (JSValue.str s) label options.header] ∧
    tgPrepare (JSValue.str s) none none = s := by
  refine ⟨?_, rfl⟩
  cases outcome <;> rfl

/-- C8 counterexample: an `error`-level call that passes the gate performs
its single write on standard output, not on the error stream — the source
uses `console.log` for every level. -/
theorem c8_counterexample :
    ((Logger.create ⟨some "cloud", none, none, none, none, none⟩).error
        "6/1/2026, 10:00:00 AM" (JSValue.str "x") none).writes.map Write.stream =
      [StdStream.stdout] ∧
    StdStream.stdout ≠ StdStream.stderr :=
  ⟨rfl, by decide⟩

/-- C8 amended: every write any leveled call performs, at every severity
including `error` and `fatal`, goes to standard output (`console.log`);
the error stream is never used. -/
theorem c8_amended_all_writes_stdout (options : Options) (level date : String)
    (msg : JSValue) (label : Option String) :
    (((Logger.create options).leveled level date msg label).writes.all
      (fun w => w.stream == StdStream.stdout)) = true := by
  unfold Logger.leveled Logger.log
  cases DEFAULT_LEVELS level <;> simp

/-- C9: the seven severity ranks are strictly increasing in the order
trace < debug < info < warn < error < fatal < unspecified, and since
`sendToTg` logs at the maximal rank `unspecified`, its local record passes
the gate for every configured minimum level chosen from the severity
names: the `unspecified`-level log always performs exactly one write. -/
theorem c9_ranks_and_gate_bypass (minLevel : String)
    (hm : minLevel ∈ ["trace", "debug", "info", "warn", "error", "fatal",
      "unspecified"])
    (runtime header : Option String) (chatId : Option Int)
    (botToken : Option String) (extra : Option (List (String × String)))
    (date : String) (msg : JSValue) (label : Option String) :
    ((DEFAULT_LEVELS "trace").getD 0 < (DEFAULT_LEVELS "debug").getD 0 ∧
     (DEFAULT_LEVELS "debug").getD 0 < (DEFAULT_LEVELS "info").getD 0 ∧
     (DEFAULT_LEVELS "info").getD 0 < (DEFAULT_LEVELS "warn").getD 0 ∧
     (DEFAULT_LEVELS "warn").getD 0 < (DEFAULT_LEVELS "error").getD 0 ∧
     (DEFAULT_LEVELS "error").getD 0 < (DEFAULT_LEVELS "fatal").getD 0 ∧
     (DEFAULT_LEVELS "fatal").getD 0 < (DEFAULT_LEVELS "unspecified").getD 0) ∧
    ((Logger.create ⟨runtime, header, some minLevel, chatId, botToken,
        extra⟩).log date "unspecified" msg label).length = 1 := by
  refine ⟨by decide, ?_⟩
  fin_cases hm <;> rfl

/-- Witness for C9 at the highest configurable threshold `unspecified`. -/
theorem c9_witness :
    ("unspecified" ∈ ["trace", "debug", "info", "warn", "error", "fatal",
      "unspecified"]) ∧
    (((DEFAULT_LEVELS "trace").getD 0 < (DEFAULT_LEVELS "debug").getD 0 ∧
     (DEFAULT_LEVELS "debug").getD 0 < (DEFAULT_LEVELS "info").getD 0 ∧
     (DEFAULT_LEVELS "info").getD 0 < (DEFAULT_LEVELS "warn").getD 0 ∧
     (DEFAULT_LEVELS "warn").getD 0 < (DEFAULT_LEVELS "error").getD 0 ∧
     (DEFAULT_LEVELS "error").getD 0 < (DEFAULT_LEVELS "fatal").getD 0 ∧
     (DEFAULT_LEVELS "fatal").getD 0 < (DEFAULT_LEVELS "unspecified").getD 0) ∧
    ((Logger.create ⟨none, none, some "unspecified", none, none, none⟩).log
        "D" "unspecified" (JSValue.str "x") none).length = 1) :=
  ⟨by decide, c9_ranks_and_gate_bypass "unspecified" (by decide) none none
    none none none "D" (JSValue.str "x") none⟩

/-- C10: on the empty-string label the two label checks disagree — both
sink formatters (testing `label !== null`) emit the `:>> ` label segment,
while `sendToTg`'s outbound text (testing truthiness) omits the prefix:
the same `sendToTg(msg, "")` call yields a labeled local record and an
unlabeled notification text. -/
theorem c10_empty_label_disagreement (level date s : String)
    (header : Option String) :
    (prepareMessageForYC level (JSValue.str s) (some "")).message =
      JSValue.str (":>> " ++ s) ∧
    prepareMessageForConsole level (JSValue.str s) (some "") date =
      date ++ ": " ++ esc ((consoleLevels level).getD "undefined")
          (jsToUpperCase level) ++ ": " ++ (esc "4" "" ++ ":>> ") ++ " " ++ s ∧
    tgPrepare (JSValue.str s) (some "") header =
      tgPrepare (JSValue.str s) none header ∧
    (runSend ((Logger.create ⟨none, none, none, none, none, none⟩).sendToTg
        date (JSValue.str s) (some "") TransportOutcome.success "stk")).writes =
      [⟨StdStream.stdout, Output.ycRecord ⟨YCLevelValue.str "UNSPECIFIED",
        JSValue.str (":>> " ++ s)⟩⟩] ∧
    (runSend ((Logger.create ⟨none, none, none, none, none, none⟩).sendToTg
        date (JSValue.str s) (some "") TransportOutcome.success "stk")).posts.map
        TgPost.text = [s] :=
  ⟨rfl, rfl, rfl, rfl, rfl⟩

end YCLogger
